import Mathlib

/-!
Verification of the core application-wizard logic of the `linkedin_auto_apply`
repository, as a shallow embedding in Lean 4.

The embedding follows the Python sources:
  * `apply/helpers.py`           (answer store lookup, outcome ledgers)
  * `apply/field_processors/base.py`   (`FieldProcessor.ask_for_input`)
  * `apply/field_processors/text_processor.py`
  * `apply/field_processors/select_processor.py`
  * `apply/field_processors/radio_processor.py`
  * `apply/form_processor.py`    (`FormProcessor.__init__` arity)
  * `apply/application_wizard.py` (`start_application`, `_emergency_exit_application`)

Playwright UI-driver calls are modelled by environment records whose fields give
each call's result; a call that can raise is modelled with `Except`.  Python
dictionaries of string answers are modelled as association lists with
insert-or-overwrite update.  Python string operations (`in`, `.lower()`,
`.isdigit()`, `int(...)`, truthiness) are modelled by executable Lean
counterparts defined below.
-/

/-- Python `s.lower()` (character-wise lowering; coincides with
`String.toLower`, but is structurally recursive so that concrete instances
reduce definitionally). -/
def String.pyLower (s : String) : String := ⟨s.data.map Char.toLower⟩

namespace LinkedinApply

/-! ## Python string primitives -/

/-- Python `needle in hay` on strings: substring containment. -/
def strContains (hay needle : String) : Bool :=
  hay.toList.tails.any (fun t => needle.toList.isPrefixOf t)

/-- Python `s.startswith(p)`. -/
def strStartsWith (s p : String) : Bool := p.toList.isPrefixOf s.toList

/-- Python `str.isdigit()`: nonempty and all characters are digits. -/
def pyIsDigit (s : String) : Bool :=
  s.toList ≠ [] && s.toList.all Char.isDigit

/-- Python `int(s)` for a digit string. -/
def strToNat (s : String) : Nat :=
  s.toList.foldl (fun a c => a * 10 + (c.toNat - '0'.toNat)) 0

/-- Python truthiness of a string: nonempty. -/
def pyTruthy (s : String) : Bool := s ≠ ""

/-- Python truthiness of an optional string (`None` and `""` are falsy). -/
def pyTruthyOpt : Option String → Bool
  | none => false
  | some s => pyTruthy s

/-! ## The answer store

The Python code keeps answers in a `dict` mapping question labels to answer
strings (the `current_job_data` entry, which holds a dict rather than a string,
is modelled separately where needed).  We model the dict as an association
list; `Store.set` overwrites an existing binding in place or appends a new one,
matching Python dict insertion-order semantics. -/

abbrev Store := List (String × String)

def Store.get? (s : Store) (k : String) : Option String :=
  (s.find? (fun p => p.1 == k)).map (fun p => p.2)

def Store.hasKey (s : Store) (k : String) : Bool :=
  s.any (fun p => p.1 == k)

def Store.set (s : Store) (k v : String) : Store :=
  if s.hasKey k then
    s.map (fun p => if p.1 == k then (k, v) else p)
  else
    s ++ [(k, v)]

/-! ## `apply/helpers.py` -/

/-- The years-of-experience auto-fill test of `get_answer_for_field`
(`apply/helpers.py` lines 215-218). -/
def expAutoFill (field_label : String) : Bool :=
  let field_lower := field_label.pyLower
  (strContains field_lower "years of experience" ||
   strContains field_lower "years of work experience") &&
  (strContains field_lower "how many" || strStartsWith field_lower "years of")

/-- `get_answer_for_field(answers, field_label)` from `apply/helpers.py`.

Returns the (possibly mutated) store together with the looked-up answer.  The
years-of-experience special case writes `"2"` into the store and returns it;
otherwise an exact match is tried first, then a case-insensitive exact match;
otherwise `none`. -/
def get_answer_for_field (answers : Store) (field_label : String) :
    Store × Option String :=
  let field_lower := field_label.pyLower
  if expAutoFill field_label then
    (answers.set field_label "2", some "2")
  else if answers.hasKey field_label then
    (answers, answers.get? field_label)
  else
    match answers.find? (fun p => p.1.pyLower == field_lower) with
    | some p => (answers, some p.2)
    | none => (answers, none)

/-- `save_application_result(data_dir, job_id, success)` from `apply/helpers.py`,
restricted to its effect on the per-outcome ledger list: append the id only if
it is not already present. -/
def save_application_result (ledger : List String) (job_id : String) :
    List String :=
  if job_id ∈ ledger then ledger else ledger ++ [job_id]

/-! ## The Answer Oracle (`answer_generator` in `apply/cover_letter_generator.py`)

`answer_generator` either returns a plain string, or the sentinel tuple
`(False, x)` marking a fallback answer that must not be saved (`x` is a string
or `False`; `base.py` replaces a falsy `x` with `""`), or raises.  The job-data
argument only affects the prompt text, not control flow, and is not modelled. -/

inductive OracleResult
  | answer (s : String)
  | fallbackAns (s : String)
deriving Repr, DecidableEq

inductive OracleOutcome
  | ok (r : OracleResult)
  | exn
deriving Repr, DecidableEq

structure AskResult where
  store : Store
  value : String
deriving Repr, DecidableEq

/-- `FieldProcessor.ask_for_input` from `apply/field_processors/base.py`
(lines 103-240), as a function of the oracle's outcome.

Returns the answer applied to the field together with the updated store.  The
saves guarded by `if not is_fallback` are skipped when the oracle returned the
fallback sentinel; in the branch starting at line 183 the code sets
`is_fallback = True` before every guarded save, so only the unconditional
"ultimate fallback" save (line 225) and the `except` branch saves fire there. -/
def ask_for_input (field_label field_type : String) (answers : Store)
    (options : Option (List String)) (oracle : OracleOutcome) : AskResult :=
  let opts := options.getD []
  let optsTruthy : Bool := match options with | some (_ :: _) => true | _ => false
  let fl := field_label.pyLower
  match oracle with
  | .exn =>
      -- `except Exception` branch (lines 228-240): emergency fallback, saved
      if (field_type == "radio" || field_type == "select") && optsTruthy then
        let d := opts.headD ""
        ⟨answers.set field_label d, d⟩
      else
        let d := if strContains fl "experience" then "2" else "Yes"
        ⟨answers.set field_label d, d⟩
  | .ok r =>
      let is_fallback : Bool := match r with | .answer _ => false | .fallbackAns _ => true
      let auto_answer := match r with
        | .answer s => s
        | .fallbackAns s => if pyTruthy s then s else ""
      -- numeric selection mapped 1-based to the option list (lines 157-164)
      if optsTruthy && pyTruthy auto_answer && pyIsDigit auto_answer &&
         decide (0 < strToNat auto_answer) &&
         decide (strToNat auto_answer ≤ opts.length) then
        let actual := opts.getD (strToNat auto_answer - 1) ""
        ⟨if !is_fallback then answers.set field_label actual else answers, actual⟩
      -- yes/no mapping for two-option fields (lines 166-175)
      else if optsTruthy && opts.length == 2 && pyTruthy auto_answer &&
         (auto_answer.pyLower == "yes" || auto_answer.pyLower == "no") &&
         (strContains (opts.getD 0 "").pyLower "yes" ||
          strContains (opts.getD 1 "").pyLower "no") then
        let selected := if auto_answer.pyLower == "yes" then opts.getD 0 "" else opts.getD 1 ""
        ⟨if !is_fallback then answers.set field_label selected else answers, selected⟩
      -- direct use of the generated answer (lines 177-181)
      else if pyTruthy auto_answer then
        ⟨if !is_fallback then answers.set field_label auto_answer else answers, auto_answer⟩
      else
        -- no answer generated (lines 183-226); `is_fallback := True` here
        if (field_type == "radio" || field_type == "select") && optsTruthy then
          if opts.length == 2 &&
             ["visa", "sponsor", "right to work", "non-compete", "competitor"].any
               (fun k => strContains fl k) then
            match opts.find? (fun o => strContains o.pyLower "no") with
            | some o => ⟨answers, o⟩
            | none => ⟨answers, opts.headD ""⟩
          else if opts.length == 2 &&
             ["remote", "commut", "relocat", "travel"].any (fun k => strContains fl k) then
            match opts.find? (fun o => strContains o.pyLower "yes") with
            | some o => ⟨answers, o⟩
            | none => ⟨answers, opts.headD ""⟩
          else
            ⟨answers, opts.headD ""⟩
        else if field_type == "text" || field_type == "textarea" then
          let d := if strContains fl "experience" then "2"
                   else "Yes, I am interested in this position and meet the requirements."
          ⟨answers, d⟩
        else
          -- ultimate fallback (lines 222-226): saved unconditionally
          let d := if field_type == "radio" || field_type == "select" then "Yes" else "2"
          ⟨answers.set field_label d, d⟩

/-! ## Text processors (`apply/field_processors/text_processor.py`) -/

inductive TextAction
  | cityAutofill
  | generatedCover (s : String)
  | filled (s : String)
  | fillFailed
  | raisedAttrError
deriving Repr, DecidableEq

structure TextResult where
  store : Store
  action : TextAction
  success : Bool
  usedCover : Bool
deriving Repr, DecidableEq

/-- `TextInputProcessor.process` (lines 23-186).

Parameters: `input_id` is the element's `id` attribute, `self_job_data` is the
truthiness of the processor's `job_data` attribute, `answers_job_data` is
whether `'current_job_data'` is present in the answers dict, `coverGen` is the
outcome of `generate_cover_letter` and `fillOk` whether `fill` succeeds.  Disk
persistence of the store (`save_answers`) is not modelled beyond the in-memory
dict. -/
def textInputProcess (input_id : Option String) (field_label : String)
    (answers : Store) (oracle : OracleOutcome)
    (self_job_data answers_job_data : Bool)
    (coverGen : Except Unit String) (fillOk : Bool) : TextResult :=
  let fl := field_label.pyLower
  -- Home Address City special case (lines 39-111); its outcome does not touch
  -- the store, so it is recorded as a distinct action
  if (match input_id with
      | some i => strContains i "city-HOME-CITY"
      | none => false) && fl == "city" then
    { store := answers, action := .cityAutofill, success := fillOk, usedCover := false }
  else
    let (answers1, a0) := get_answer_for_field answers field_label
    -- domain-specific defaults before consulting the oracle (lines 115-128)
    let st :=
      if !pyTruthyOpt a0 && (strContains fl "years of experience" ||
          strContains fl "years of work experience" ||
          strContains fl "how many years") then
        AskResult.mk answers1 "2"
      else if !pyTruthyOpt a0 && strContains fl "notice period" then
        AskResult.mk answers1 "0"
      else if !pyTruthyOpt a0 && strContains fl "salary" then
        AskResult.mk answers1 "30000"
      else if !pyTruthyOpt a0 then
        ask_for_input field_label "text" answers1 none oracle
      else
        AskResult.mk answers1 (a0.getD "")
    -- line 131: the applied answer is saved unconditionally
    let answers2 := st.store.set field_label st.value
    let answer := st.value
    -- cover-letter special case (lines 143-178): generation happens only when
    -- the current answer is the file sentinel or empty
    if strContains fl "cover letter" &&
       (answer == "@file:cover_letter.pdf" || !pyTruthy answer) then
      if self_job_data || answers_job_data then
        match coverGen with
        | .ok letter =>
            if fillOk then
              { store := answers2, action := .generatedCover letter,
                success := true, usedCover := true }
            else
              { store := answers2, action := .fillFailed,
                success := false, usedCover := false }
        | .error _ =>
            -- generation failed (caught at line 172): standard fill with `answer`
            if fillOk then
              { store := answers2, action := .filled answer,
                success := true, usedCover := false }
            else
              { store := answers2, action := .fillFailed,
                success := false, usedCover := false }
      else
        if fillOk then
          { store := answers2, action := .filled answer,
            success := true, usedCover := false }
        else
          { store := answers2, action := .fillFailed,
            success := false, usedCover := false }
    else
      if fillOk then
        { store := answers2, action := .filled answer,
          success := true, usedCover := false }
      else
        { store := answers2, action := .fillFailed,
          success := false, usedCover := false }

/-- `TextareaProcessor.process` (lines 196-302).

For cover-letter labels the stored answer is cleared (line 230) and a fresh
letter is always generated when job data is available; on generation or fill
failure the cleared (empty) answer is filled instead.  When no job data is
available at all, line 253 calls `.get` on `None` and the resulting
`AttributeError` escapes the `except PlaywrightError` clause at line 300. -/
def textareaProcess (field_label : String) (answers : Store)
    (oracle : OracleOutcome) (self_job_data answers_job_data : Bool)
    (coverGen : Except Unit String) (fillOk : Bool) : TextResult :=
  let fl := field_label.pyLower
  let (answers1, a0) := get_answer_for_field answers field_label
  let st :=
    if !pyTruthyOpt a0 then ask_for_input field_label "textarea" answers1 none oracle
    else AskResult.mk answers1 (a0.getD "")
  -- line 214: unconditional save of the looked-up/generated answer
  let answers2 := st.store.set field_label st.value
  let answer0 := st.value
  if fl == "cover letter" || strContains fl "cover letter" then
    -- line 230: the stored answer is cleared, never reused
    let answer := ""
    if self_job_data || answers_job_data then
      match coverGen with
      | .ok letter =>
          if fillOk then
            -- line 277: the generated letter is saved for reference
            { store := answers2.set field_label letter,
              action := .generatedCover letter, success := true, usedCover := true }
          else
            -- fill failure caught at 285; falls through to the standard fill
            -- of the cleared answer, which fails as well
            { store := answers2, action := .fillFailed,
              success := false, usedCover := false }
      | .error _ =>
          if fillOk then
            { store := answers2, action := .filled answer,
              success := true, usedCover := false }
          else
            { store := answers2, action := .fillFailed,
              success := false, usedCover := false }
    else
      { store := answers2, action := .raisedAttrError,
        success := false, usedCover := false }
  else
    if fillOk then
      { store := answers2, action := .filled answer0,
        success := true, usedCover := false }
    else
      { store := answers2, action := .fillFailed,
        success := false, usedCover := false }

/-! ## Select processor (`apply/field_processors/select_processor.py`) -/

inductive SelectAction
  | noOptions
  | selected (opt : String)
  | promptUser (opt : String)
  | autoSelected (opt : String)
deriving Repr, DecidableEq

structure SelectResult where
  store : Store
  action : SelectAction
  success : Bool
  oracleInvoked : Bool
deriving Repr, DecidableEq

/-- The critical-question keyword list of `SelectProcessor.process` (line 29). -/
def critical_keywords : List String :=
  ["legal", "authorization", "authorisation", "visa", "sponsor", "citizen", "work", "right"]

/-- `SelectProcessor.process` (lines 16-193).

`rawOptions` are the option texts read from the DOM (the code drops empty
texts and the placeholder `"Select an option"`); `userChoice` stands for the
eventual valid 1-based selection entered in the interactive `input()` retry
loop of lines 101-115 (the loop only exits on a valid index, modelled by
taking the choice modulo the option count).  Driver failures of
`select_option` (caught at line 191) are not modelled; `oracleInvoked` records
whether `ask_for_input` was called. -/
def selectProcess (field_label : String) (answers : Store)
    (rawOptions : List String) (oracle : OracleOutcome) (userChoice : Nat) :
    SelectResult :=
  let fl := field_label.pyLower
  let is_critical := critical_keywords.any (fun k => strContains fl k)
  -- stored-answer lookup: exact key, then case-insensitive key (lines 35-45)
  let answer0 : Option String :=
    if answers.hasKey field_label then answers.get? field_label
    else match answers.find? (fun p => p.1.pyLower == fl) with
      | some p => some p.2
      | none => none
  -- critical questions discard the stored answer (lines 48-50)
  let answer1 : Option String := if is_critical then none else answer0
  let options := rawOptions.filter (fun t => pyTruthy t && t != "Select an option")
  if options.isEmpty then
    { store := answers, action := .noOptions, success := false, oracleInvoked := false }
  else
    -- re-resolve when no stored answer, stored answer not among the options,
    -- or the question is critical (line 68)
    let ask := !pyTruthyOpt answer1 || !options.contains (answer1.getD "") || is_critical
    let st :=
      if ask then
        let r := ask_for_input field_label "select" answers (some options) oracle
        -- line 73: the resolved answer is saved
        AskResult.mk (r.store.set field_label r.value) r.value
      else
        AskResult.mk answers (answer1.getD "")
    let answer := st.value
    if pyTruthy answer && options.contains answer then
      { store := st.store, action := .selected answer, success := true, oracleInvoked := ask }
    else if pyTruthy answer then
      -- stored answer does not match the options: interactive confirmation
      -- loop (lines 94-119); the chosen option is saved
      let sel := options.getD (userChoice % options.length) ""
      { store := st.store.set field_label sel, action := .promptUser sel,
        success := true, oracleInvoked := ask }
    else
      -- no stored answer at all (lines 120-189): keyword auto-answers, then
      -- the generator; unreachable in practice since `ask_for_input` never
      -- returns an empty string for a nonempty option list
      let auto : Option String :=
        if ["remote", "work from home", "wfh", "telecommut", "home working"].any
            (fun k => strContains fl k) then
          options.find? (fun o => o.pyLower == "yes")
        else if ["commut", "locat", "relocat", "travel", "on-site"].any
            (fun k => strContains fl k) then
          options.find? (fun o => o.pyLower == "yes")
        else if ["visa", "sponsor"].any (fun k => strContains fl k) then
          options.find? (fun o => o.pyLower == "no")
        else if ["years of experience", "years of work experience", "how many years"].any
            (fun k => strContains fl k) then
          options.find? (fun o => strContains o "0-2" || strContains o "1-3" ||
            strContains o "0-1" || strContains o.pyLower "2 years" ||
            strContains o "1-2" || o == "2")
        else none
      match auto with
      | some sel =>
          { store := st.store.set field_label sel, action := .autoSelected sel,
            success := true, oracleInvoked := ask }
      | none =>
          let r := ask_for_input field_label "select" st.store (some options) oracle
          { store := r.store, action := .autoSelected r.value,
            success := true, oracleInvoked := true }

/-! ## Radio processor (`apply/field_processors/radio_processor.py`,
class `RadioProcessor`) -/

structure RadioEnv where
  oracle : OracleOutcome
  clickOk : Nat → Bool     -- `_click_radio_option` success, by option index
  pageNoLabel : Bool       -- a page-wide label containing "no" exists
  noLabelClickOk : Bool

inductive RadioAction
  | undetermined
  | noLabelClick
  | skipResume
  | heuristicYesNo (i : Nat)
  | autoClick (i : Nat)
  | genericClick (i : Nat)
  | storedClick (i : Nat)
  | sponsorNoClick (i : Nat)
  | gptClick (i : Nat)
  | clickFailed
  | unmatched
deriving Repr, DecidableEq

structure RadioResult where
  store : Store
  success : Bool
  action : RadioAction
  oracleInvoked : Bool
deriving Repr, DecidableEq

/-- Sponsorship keyword list used at lines 89, 269 and 563. -/
def sponsorKws : List String :=
  ["visa", "sponsor", "sponsorship", "require sponsorship",
   "will you in the future require", "work permit"]

/-- Extended sponsorship keyword list used at line 148. -/
def sponsorKwsRtw : List String := sponsorKws ++ ["right to work"]

/-- The stored-answer matching loop of lines 253-262: first option index whose
text fuzzily matches the stored answer (case-insensitive equality or substring
either way) and whose click succeeds; on click failure the loop moves on. -/
def storedSelect (options : List String) (a : String) (clickOk : Nat → Bool) :
    Option Nat :=
  (List.range options.length).find? (fun i =>
    let o := (options.getD i "").pyLower
    (a.pyLower == o || strContains o a.pyLower || strContains a.pyLower o) && clickOk i)

/-- The generic match-and-click of lines 224-251: match the determined answer
exactly or case-insensitively, defaulting to index 0 when nothing matches
(line 237), then click and save the actually selected option text. -/
def radioGenericFinish (field_label : String) (answers : Store)
    (options : List String) (auto : String) (env : RadioEnv)
    (oracleInvoked : Bool) : RadioResult :=
  let idx :=
    if pyTruthy auto then
      options.findIdx? (fun o => o == auto || o.pyLower == auto.pyLower)
    else none
  let i := idx.getD 0
  if env.clickOk i then
    { store := answers.set field_label (options.getD i ""), success := true,
      action := .genericClick i, oracleInvoked := oracleInvoked }
  else
    { store := answers, success := false, action := .clickFailed,
      oracleInvoked := oracleInvoked }

/-- The unmatched-stored-answer oracle block of lines 282-322: consult the
generator, map a numeral 1-based or fuzzy-match the text, click and save; any
failure (including the fallback tuple, on which `.isdigit()` raises
`AttributeError`, caught at line 320) returns failure.  -/
def radioGptUnmatched (field_label : String) (answers : Store)
    (options : List String) (env : RadioEnv) : RadioResult :=
  match env.oracle with
  | .ok (.answer s) =>
      let idx :=
        if pyIsDigit s && decide (0 < strToNat s) && decide (strToNat s ≤ options.length) then
          some (strToNat s - 1)
        else
          options.findIdx? (fun o =>
            strContains o.pyLower s.pyLower || strContains s.pyLower o.pyLower)
      match idx with
      | some i =>
          if env.clickOk i then
            { store := answers.set field_label (options.getD i ""), success := true,
              action := .gptClick i, oracleInvoked := true }
          else
            { store := answers, success := false, action := .unmatched,
              oracleInvoked := true }
      | none =>
          { store := answers, success := false, action := .unmatched,
            oracleInvoked := true }
  | _ =>
      { store := answers, success := false, action := .unmatched,
        oracleInvoked := true }

/-- The keyword auto-answers of lines 144-166 of `RadioProcessor.process`. -/
def radioAutoAnswer (field_label : String) : Option String :=
  let fl := field_label.pyLower
  if sponsorKwsRtw.any (fun k => strContains fl k) then some "No"
  else if strContains fl "are you comfortable working in a remote setting" then some "Yes"
  else if ["remote", "remote setting", "work from home", "wfh", "telecommut",
           "home working"].any (fun k => strContains fl k) then some "Yes"
  else if ["commut", "locat", "relocat", "travel", "on-site"].any
      (fun k => strContains fl k) then some "Yes"
  else none

/-- Lines 143-324 of `RadioProcessor.process`: the no-stored-answer branch
(auto-answer keywords, then the generator with 1-based numeral conversion at
lines 204-211) and the stored-answer branch (fuzzy match loop, sponsorship
default, generator as last resort). -/
def radioMain (field_label : String) (answers : Store) (options : List String)
    (answer : Option String) (env : RadioEnv) : RadioResult :=
  let fl := field_label.pyLower
  if !pyTruthyOpt answer then
    match radioAutoAnswer field_label with
    | some a =>
        -- lines 168-181: exact case-insensitive match and click; on miss or
        -- click failure fall through to the generic finish
        match options.findIdx? (fun o => o.pyLower == a.pyLower) with
        | some i =>
            if env.clickOk i then
              { store := answers.set field_label (options.getD i ""), success := true,
                action := .autoClick i, oracleInvoked := false }
            else radioGenericFinish field_label answers options a env false
        | none => radioGenericFinish field_label answers options a env false
    | none =>
        -- line 183: the non-compete `elif` is attached to `if auto_answer`,
        -- so it runs only when no keyword auto-answer was found
        if ["non-compete", "competitor", "confidentiality agreement"].any
            (fun k => strContains fl k) then
          radioGenericFinish field_label answers options "No" env false
        else
          -- lines 187-222: direct generator call; a numeral in range is
          -- converted 1-based to the option text; exceptions (including the
          -- fallback tuple, whose `.isdigit()` raises) hit the except at 212
          match env.oracle with
          | .ok (.answer s) =>
              let s' :=
                if pyIsDigit s && decide (0 < strToNat s) &&
                   decide (strToNat s ≤ options.length) then
                  options.getD (strToNat s - 1) ""
                else s
              radioGenericFinish field_label answers options s' env true
          | _ =>
              let d :=
                if (sponsorKwsRtw ++ ["non-compete", "competitor"]).any
                    (fun k => strContains fl k) then "No"
                else if ["remote", "commut", "relocat", "travel"].any
                    (fun k => strContains fl k) then "Yes"
                else options.headD ""
              radioGenericFinish field_label answers options d env true
  else
    -- stored-answer branch (lines 253-324)
    let a := answer.getD ""
    match storedSelect options a env.clickOk with
    | some i =>
        { store := answers, success := true, action := .storedClick i,
          oracleInvoked := false }
    | none =>
        if !options.isEmpty then
          if sponsorKws.any (fun k => strContains fl k) then
            match options.findIdx? (fun o => o.pyLower == "no") with
            | some i =>
                if env.clickOk i then
                  { store := answers, success := true, action := .sponsorNoClick i,
                    oracleInvoked := false }
                else radioGptUnmatched field_label answers options env
            | none => radioGptUnmatched field_label answers options env
          else radioGptUnmatched field_label answers options env
        else
          { store := answers, success := true, action := .unmatched,
            oracleInvoked := false }

/-- The yes/no question heuristics of lines 117-141 of
`RadioProcessor.process`: for a two-option yes/no group, disability questions
prefer "No" and commute/experience questions prefer "Yes". -/
def radioHeuristic (field_label : String) (options : List String) : Option Nat :=
  let fl := field_label.pyLower
  let yesIdx := options.findIdx? (fun o => o.pyLower == "yes")
  let noIdx := options.findIdx? (fun o => o.pyLower == "no")
  if options.length == 2 &&
     options.any (fun o => o.pyLower == "yes" || o.pyLower == "no") &&
     yesIdx.isSome && noIdx.isSome then
    if strContains fl "disability" || strContains fl "disabled" then noIdx
    else if ["commut", "locat", "relocat", "move", "travel"].any
        (fun k => strContains fl k) then yesIdx
    else if ["experience", "work", "skill", "qualified", "eligible"].any
        (fun k => strContains fl k) then yesIdx
    else none
  else none

/-- `RadioProcessor.process` (lines 16-328).  Label extraction from the DOM is
not modelled; `field_label` and the option texts are taken as inputs.  The
branch for undetermined options (lines 66-109) consults the generator and,
for sponsorship questions, tries to click a page-wide "No" label; every other
path of that branch returns failure. -/
def radioProcess (field_label : String) (answers : Store)
    (options : List String) (env : RadioEnv) : RadioResult :=
  let fl := field_label.pyLower
  let (answers1, answer) := get_answer_for_field answers field_label
  if options.isEmpty then
    match env.oracle with
    | .exn =>
        { store := answers1, success := false, action := .undetermined,
          oracleInvoked := true }
    | .ok _ =>
        if sponsorKws.any (fun k => strContains fl k) && env.pageNoLabel then
          if env.noLabelClickOk then
            { store := answers1, success := true, action := .noLabelClick,
              oracleInvoked := true }
          else
            { store := answers1, success := false, action := .undetermined,
              oracleInvoked := true }
        else
          { store := answers1, success := false, action := .undetermined,
            oracleInvoked := true }
  else if strContains fl "resume" || strContains fl "cv" then
    { store := answers1, success := true, action := .skipResume, oracleInvoked := false }
  else
    match radioHeuristic field_label options with
    | some i =>
        if env.clickOk i then
          { store := answers1, success := true, action := .heuristicYesNo i,
            oracleInvoked := false }
        else
          { store := answers1, success := false, action := .clickFailed,
            oracleInvoked := false }
    | none => radioMain field_label answers1 options answer env

/-! ## Status constants (`apply/constants.py`) -/

def APPLICATION_SUCCESS : String := "success"
def APPLICATION_FAILURE : String := "failure"
def APPLICATION_INCOMPLETE : String := "incomplete"

/-! ## Emergency exit (`ApplicationWizard._emergency_exit_application`,
`apply/application_wizard.py` lines 83-301)

Each locator/count/click/evaluate call is given by the environment; a call
that raises is modelled with `Except.error` (every strategy is individually
wrapped in `try/except` in the source, so a raise makes that strategy fail).
The returned trace records which UI interactions were attempted, in order. -/

structure ExitEnv where
  closeCount : Except Unit Nat      -- CLOSE_BUTTON_SELECTOR matches
  closeClickOk : Bool
  svgCount : Except Unit Nat        -- svg[data-test-icon="close-medium"] matches
  svgClickOk : Bool                 -- click on the parent button or the svg itself
  jsCloseFound : Except Unit Bool   -- page.evaluate close script reported Success
  discardCount : Except Unit Nat    -- DISCARD_BUTTON_SELECTOR matches
  discardClickOk : Bool
  jsDiscardFound : Except Unit Bool -- page.evaluate discard script reported Success
  modalCount : Except Unit Nat      -- APPLICATION_MODAL_SELECTOR matches, for verification

inductive ExitStep
  | screenshot
  | closeQuery
  | closeClick
  | svgQuery
  | svgClick
  | jsClose
  | discardQuery
  | discardClick
  | jsDiscard
  | modalQuery
deriving Repr, DecidableEq

/-- Close strategy 1: the comprehensive close selector (lines 110-120). -/
def closeStrategy1 (env : ExitEnv) : Bool :=
  match env.closeCount with
  | .ok (_ + 1) => env.closeClickOk
  | _ => false

/-- Close strategy 2: the svg close icon (lines 123-141). -/
def closeStrategy2 (env : ExitEnv) : Bool :=
  match env.svgCount with
  | .ok (_ + 1) => env.svgClickOk
  | _ => false

/-- Close strategy 3: the page-level JavaScript close (lines 144-191). -/
def closeStrategy3 (env : ExitEnv) : Bool :=
  match env.jsCloseFound with
  | .ok b => b
  | .error _ => false

/-- Whether some close strategy succeeds (Step 1, lines 106-195). -/
def closeSucceeds (env : ExitEnv) : Bool :=
  closeStrategy1 env || closeStrategy2 env || closeStrategy3 env

/-- `_emergency_exit_application`: returns the verified-closure boolean and
the trace of attempted UI interactions. -/
def emergencyExit (env : ExitEnv) : Bool × List ExitStep :=
  let t0 : List ExitStep := [.screenshot]
  -- Strategy 1: comprehensive close selector
  let c1 : Bool := closeStrategy1 env
  let t1 := t0 ++ (match env.closeCount with
    | .ok (_ + 1) => [.closeQuery, .closeClick]
    | _ => [.closeQuery])
  -- Strategy 2: svg close icon
  let c2 : Bool := c1 || closeStrategy2 env
  let t2 := if c1 then t1 else t1 ++ (match env.svgCount with
    | .ok (_ + 1) => [.svgQuery, .svgClick]
    | _ => [.svgQuery])
  -- Strategy 3: JavaScript close
  let c3 : Bool := c2 || closeStrategy3 env
  let t3 := if c2 then t2 else t2 ++ [.jsClose]
  if !c3 then (false, t3)
  else
    -- Step 2: discard confirmation (lines 197-282); failure only logs
    let d1 : Bool := match env.discardCount with
      | .ok (_ + 1) => env.discardClickOk
      | _ => false
    let t4 := t3 ++ (match env.discardCount with
      | .ok (_ + 1) => [.discardQuery, .discardClick]
      | _ => [.discardQuery])
    let t5 := if d1 then t4 else t4 ++ [.jsDiscard]
    -- Step 3: verify the modal is gone (lines 284-297)
    match env.modalCount with
    | .ok 0 => (true, t5 ++ [.modalQuery])
    | _ => (false, t5 ++ [.modalQuery])

/-! ## The application wizard (`ApplicationWizard.start_application`,
`apply/application_wizard.py` lines 303-747)

Counters: `max_steps = 8`, `max_duplicates = 2`, `max_stuck_attempts = 5`
(line 339-344).  Exceptions raised by driver calls are `TimeoutError` or
`PlaywrightError`; the construction `FormProcessor(self.page, self.answers,
job_data)` at line 420 additionally raises `TypeError`, because
`FormProcessor.__init__` (form_processor.py line 25) accepts only
`(self, page, answers)`.  All three are caught by the `except` clauses at
lines 709-747; the code after line 420 of the loop body is therefore
unreachable and is not elaborated further. -/

def maxSteps : Nat := 8
def maxDuplicates : Nat := 2
def maxStuckAttempts : Nat := 5

/-- Number of positional parameters of `FormProcessor.__init__` besides
`self` (`apply/form_processor.py` line 25: `page`, `answers`). -/
def formProcessorArity : Nat := 2

/-- Number of arguments passed at `application_wizard.py` line 420
(`self.page`, `self.answers`, `job_data`). -/
def formProcessorCallArgs : Nat := 3

inductive Exn
  | timeout (msg : String)
  | playwright (msg : String)
  | typeError (msg : String)
deriving Repr, DecidableEq

def Exn.message : Exn → String
  | .timeout m => m
  | .playwright m => m
  | .typeError m => m

/-- The `TypeError` message for calling a 2-parameter `__init__` with 3
arguments. -/
def tyErrMsg : String := "__init__() takes 3 positional arguments but 4 were given"

/-- Driver behaviour during one loop iteration. -/
structure StepEnv where
  premium : Except Exn Bool       -- check_and_handle_premium_redirect
  modalCount : Except Exn Nat     -- APPLICATION_MODAL_SELECTOR matches
  innerHtml : Except Exn String   -- app_modal.inner_html(), the step fingerprint
  altButtons : Except Exn (List String)  -- texts of the modal's buttons
  altClick : Except Exn Unit      -- clicking the chosen alternative button

/-- Driver behaviour for a whole attempt. -/
structure WizEnv where
  easyApplyClicked : Bool         -- job_data['easy_apply_clicked']
  easyApplyCount : Except Exn Nat
  easyApplyClick : Except Exn Unit
  steps : Nat → StepEnv           -- per loop iteration
  exitResult : Bool               -- _emergency_exit_application's boolean

structure WizState where
  stepCount : Nat
  prevContent : Option String
  dupCount : Nat
  stuckCount : Nat
deriving Repr, DecidableEq

structure WizOutcome where
  status : String
  failureReasons : List String    -- reasons appended to failed_applications
  emergencyExits : Nat            -- number of emergency-exit invocations
deriving Repr, DecidableEq

def exitTxt (ok : Bool) : String := if ok then "successful" else "failed"

/-- The alternate-control scan of lines 386-398: first button index whose
lowercased text contains a continue-like keyword, skipping index 0. -/
def altFind (btns : List String) : Option Nat :=
  (List.range btns.length).find? (fun i =>
    (["next", "continue", "submit", "review"].any
      (fun w => strContains (btns.getD i "").pyLower w)) && decide (0 < i))

/-- Outcome of the duplicate check (lines 376-414). -/
inductive DupOutcome
  | proceed (prev : Option String) (dup : Nat)   -- go on to ProcessFields
  | altClicked (i : Nat) (prev : Option String) (dup : Nat) -- alternative clicked, then go on
  | exitFailure                                   -- emergency exit + Failure return
deriving Repr, DecidableEq

/-- The duplicate-state check: compare the fingerprint with the previous
iteration's, maintain `duplicate_form_count`, and at the threshold scan for an
alternative continue control. -/
def checkDuplicate (prev : Option String) (dup : Nat) (content : String)
    (btns : List String) : DupOutcome :=
  if some content == prev then
    let dup' := dup + 1
    if maxDuplicates ≤ dup' then
      match altFind btns with
      | some i => .altClicked i prev dup'
      | none => .exitFailure
    else .proceed prev dup'
  else .proceed (some content) 0

/-- Result of one loop iteration.  Every `continue` in the source is
immediately preceded by `step_count += 1`, so the next-state constructor
carries only the remaining fields. -/
inductive IterOut
  | done (o : WizOutcome)
  | next (prev : Option String) (dup : Nat) (stuck : Nat)
deriving Repr, DecidableEq

/-- One iteration of the step loop (lines 349-693), up to the field-processing
stage.  Reaching that stage constructs `FormProcessor(self.page, self.answers,
job_data)`, which always raises `TypeError`; the submit/continue search that
follows it in the source is unreachable. -/
def stepIter (env : WizEnv) (s : WizState) : Except Exn IterOut :=
  let se := env.steps s.stepCount
  match se.premium with
  | .error e => .error e
  | .ok _ =>
  match se.modalCount with
  | .error e => .error e
  | .ok mc =>
  if mc == 0 then
    .ok (.done
      { status := APPLICATION_FAILURE,
        failureReasons :=
          ["Application modal disappeared at step " ++ toString (s.stepCount + 1)
            ++ ", emergency exit " ++ exitTxt env.exitResult],
        emergencyExits := 1 })
  else
  match se.innerHtml with
  | .error e => .error e
  | .ok content =>
  -- the button scan happens only in the duplicate-threshold branch; mirror
  -- that by forcing `altButtons` exactly under `checkDuplicate`'s test
  match (if some content == s.prevContent && maxDuplicates ≤ s.dupCount + 1 then
          se.altButtons
         else .ok []) with
  | .error e => .error e
  | .ok btns =>
  match checkDuplicate s.prevContent s.dupCount content btns with
  | .exitFailure =>
      .ok (.done
        { status := APPLICATION_FAILURE,
          failureReasons :=
            ["Infinite loop detected in application form at step "
              ++ toString (s.stepCount + 1) ++ ", emergency exit "
              ++ exitTxt env.exitResult],
          emergencyExits := 1 })
  | .altClicked _ _ _ =>
      (match se.altClick with
       | .error e => .error e
       | .ok _ => .error (.typeError tyErrMsg))
  | .proceed _ _ =>
      .error (.typeError tyErrMsg)

/-- The outcome when the `while step_count < max_steps` condition fails
(lines 695-707). -/
def maxStepsOutcome (env : WizEnv) : WizOutcome :=
  { status := APPLICATION_FAILURE,
    failureReasons :=
      ["Reached max step count (" ++ toString maxSteps
        ++ ") without Submit button, emergency exit " ++ exitTxt env.exitResult],
    emergencyExits := 1 }

/-- The step loop; also counts the iterations executed. -/
def stepLoop (env : WizEnv) (s : WizState) : Except Exn WizOutcome × Nat :=
  if s.stepCount < maxSteps then
    match stepIter env s with
    | .error e => (.error e, 1)
    | .ok (.done o) => (.ok o, 1)
    | .ok (.next prev dup stuck) =>
        let r := stepLoop env ⟨s.stepCount + 1, prev, dup, stuck⟩
        (r.1, r.2 + 1)
  else (.ok (maxStepsOutcome env), 0)
termination_by maxSteps - s.stepCount
decreasing_by omega

/-- The body of the `try` block of `start_application` (lines 314-707):
trigger entry, then run the step loop from the initial counters. -/
def runBody (env : WizEnv) : Except Exn WizOutcome × Nat :=
  if env.easyApplyClicked then
    stepLoop env ⟨0, none, 0, 0⟩
  else
    match env.easyApplyCount with
    | .error e => (.error e, 0)
    | .ok 0 =>
        (.ok { status := APPLICATION_FAILURE,
               failureReasons := ["No Easy Apply button found"],
               emergencyExits := 0 }, 0)
    | .ok (_ + 1) =>
        match env.easyApplyClick with
        | .error e => (.error e, 0)
        | .ok _ => stepLoop env ⟨0, none, 0, 0⟩

/-- `start_application`: the `try` body with the `except TimeoutError /
PlaywrightError / Exception` clauses of lines 709-747, each of which invokes
the emergency exit and records a `Failure` whose reason embeds the exception
message. -/
def startApplication (env : WizEnv) : WizOutcome :=
  match (runBody env).1 with
  | .ok o => o
  | .error e =>
      let head := match e with
        | .timeout m => "Timeout: " ++ m
        | .playwright m => "Playwright error: " ++ m
        | .typeError m => "Unexpected error: " ++ m
      { status := APPLICATION_FAILURE,
        failureReasons := [head ++ ", emergency exit " ++ exitTxt env.exitResult],
        emergencyExits := 1 }

/-- Whether the attempt reaches the field-processing stage of the first loop
iteration (entry succeeded; premium check, modal lookup and fingerprint read
succeeded with the modal present; the initial fingerprint always differs from
`None`, so the duplicate branch is not taken on iteration 0). -/
def reachesFieldStage (env : WizEnv) : Bool :=
  (env.easyApplyClicked ||
    (match env.easyApplyCount, env.easyApplyClick with
     | .ok (_ + 1), .ok _ => true
     | _, _ => false)) &&
  (match (env.steps 0).premium, (env.steps 0).modalCount,
         (env.steps 0).innerHtml with
   | .ok _, .ok (_ + 1), .ok _ => true
   | _, _, _ => false)

/-! ## General lemmas about the embedding -/

theorem strContains_of_infix {hay needle : String}
    (h : needle.toList <:+: hay.toList) : strContains hay needle = true := by
  unfold strContains
  rw [List.any_eq_true]
  obtain ⟨t, hpre, hsuf⟩ := List.infix_iff_prefix_suffix.mp h
  exact ⟨t, (List.mem_tails _ _).mpr hsuf, List.isPrefixOf_iff_prefix.mpr hpre⟩

theorem strStartsWith_of_prefix {s p : String}
    (h : p.toList <+: s.toList) : strStartsWith s p = true :=
  List.isPrefixOf_iff_prefix.mpr h

theorem find?_map_overwrite (k v : String) (s : List (String × String))
    (h : s.any (fun p => p.1 == k) = true) :
    (s.map (fun p => if p.1 == k then (k, v) else p)).find?
      (fun p => p.1 == k) = some (k, v) := by
  induction s with
  | nil => simp at h
  | cons a t ih =>
      by_cases ha : (a.1 == k) = true
      · rw [List.map_cons, if_pos ha]
        exact List.find?_cons_of_pos _ (by simp)
      · rw [List.any_cons, Bool.or_eq_true] at h
        rcases h with h | h
        · exact absurd h ha
        · rw [List.map_cons, if_neg ha,
            List.find?_cons_of_neg (p := fun r : String × String => r.1 == k) _ ha]
          exact ih h

theorem find?_append_right {α : Type} (p : α → Bool) (l₁ l₂ : List α)
    (h : l₁.find? p = none) : (l₁ ++ l₂).find? p = l₂.find? p := by
  induction l₁ with
  | nil => simp
  | cons a t ih =>
      by_cases ha : p a = true
      · rw [List.find?_cons_of_pos _ ha] at h; simp at h
      · rw [List.find?_cons_of_neg _ ha] at h
        rw [List.cons_append, List.find?_cons_of_neg _ ha]
        exact ih h

theorem find?_set_self (s : Store) (k v : String) :
    (s.set k v).find? (fun p => p.1 == k) = some (k, v) := by
  unfold Store.set
  by_cases hk : Store.hasKey s k = true
  · rw [if_pos hk]
    exact find?_map_overwrite k v s hk
  · rw [if_neg hk]
    unfold Store.hasKey at hk
    have hnone : s.find? (fun p => p.1 == k) = none := by
      rw [List.find?_eq_none]
      intro p hp hpk
      exact hk (List.any_eq_true.mpr ⟨p, hp, hpk⟩)
    rw [find?_append_right _ _ _ hnone,
      List.find?_cons_of_pos _ (by simp)]

theorem get?_set_self (s : Store) (k v : String) :
    (s.set k v).get? k = some v := by
  unfold Store.get?
  rw [find?_set_self]
  rfl

/-! ## Claim C10 -/

theorem save_result_nodup (l : List String) (id : String) (h : l.Nodup) :
    (save_application_result l id).Nodup := by
  unfold save_application_result
  split
  · exact h
  · next hmem => simp [List.nodup_append, h, List.disjoint_singleton, hmem]

theorem foldl_save_result_nodup (ids : List String) (l : List String)
    (h : l.Nodup) : (ids.foldl save_application_result l).Nodup := by
  induction ids generalizing l with
  | nil => exact h
  | cons a t ih => exact ih _ (save_result_nodup _ _ h)

/-- C10: each outcome ledger is deduplicated by job id: over any sequence of
recordings into a ledger (starting from the empty file the code creates), a
given job id is stored at most once, and recording the same id twice yields
exactly one entry. -/
theorem c10_ledger_dedup_by_id :
    (∀ (ids : List String) (id : String),
        (ids.foldl save_application_result []).count id ≤ 1) ∧
    (∀ id : String,
        save_application_result (save_application_result [] id) id = [id]) := by
  constructor
  · intro ids id
    exact List.nodup_iff_count_le_one.mp
      (foldl_save_result_nodup ids [] List.nodup_nil) id
  · intro id
    simp [save_application_result]

/-! ## Claim C8 -/

theorem gaff_exp (answers : Store) (label : String)
    (h : expAutoFill label = true) :
    (get_answer_for_field answers label).2 = some "2" := by
  unfold get_answer_for_field
  rw [if_pos h]

theorem gaff_store_unchanged (answers : Store) (label : String)
    (h : expAutoFill label = false) :
    (get_answer_for_field answers label).1 = answers := by
  unfold get_answer_for_field
  rw [if_neg (by simp [h])]
  split
  · rfl
  · split <;> rfl

theorem gaff_none_iff (answers : Store) (label : String)
    (h : expAutoFill label = false) :
    ((get_answer_for_field answers label).2 = none ↔
      ∀ p ∈ answers, p.1.pyLower ≠ label.pyLower) := by
  unfold get_answer_for_field
  rw [if_neg (by simp [h])]
  by_cases hk : Store.hasKey answers label = true
  · rw [if_pos hk]
    show answers.get? label = none ↔ _
    unfold Store.hasKey at hk
    obtain ⟨p, hmem, hp⟩ := List.any_eq_true.mp hk
    unfold Store.get?
    rcases hf : answers.find? (fun r => r.1 == label) with _ | q
    · exact (List.find?_eq_none.mp hf p hmem hp).elim
    · rw [hf]
      simp only [Option.map_some', reduceCtorEq, false_iff, not_forall]
      have hp' := eq_of_beq hp
      exact ⟨p, hmem, by simp [hp']⟩
  · rw [if_neg hk]
    unfold Store.hasKey at hk
    rcases hf : answers.find? (fun p => p.1.pyLower == label.pyLower) with _ | q
    · rw [hf]
      simp only [true_iff]
      intro p hmem hpl
      exact List.find?_eq_none.mp hf p hmem (by simp [hpl])
    · rw [hf]
      simp only [reduceCtorEq, false_iff, not_forall]
      have hq := List.find?_some hf
      have hq' := eq_of_beq hq
      exact ⟨q, List.mem_of_find?_eq_some hf, by simp [hq']⟩

theorem gaff_some (answers : Store) (label : String)
    (h : expAutoFill label = false) (v : String)
    (hv : (get_answer_for_field answers label).2 = some v) :
    ∃ p ∈ answers, p.1.pyLower = label.pyLower ∧ p.2 = v := by
  unfold get_answer_for_field at hv
  rw [if_neg (by simp [h])] at hv
  by_cases hk : Store.hasKey answers label = true
  · rw [if_pos hk] at hv
    have hv' : answers.get? label = some v := hv
    unfold Store.get? at hv'
    rcases hf : answers.find? (fun p => p.1 == label) with _ | q <;> rw [hf] at hv'
    · simp at hv'
    · simp only [Option.map_some', Option.some.injEq] at hv'
      have hq := List.find?_some hf
      have hq' := eq_of_beq hq
      exact ⟨q, List.mem_of_find?_eq_some hf, by rw [hq'], hv'⟩
  · rw [if_neg hk] at hv
    rcases hf : answers.find? (fun p => p.1.pyLower == label.pyLower) with _ | q
    · rw [hf] at hv
      simp at hv
    · rw [hf] at hv
      simp only [Option.some.injEq] at hv
      have hq := List.find?_some hf
      have hq' := eq_of_beq hq
      exact ⟨q, List.mem_of_find?_eq_some hf, hq', hv⟩

/-- C8 fails as stated: `get_answer_for_field` can return a value with no
stored match at all.  With an empty store, the label
"How many years of experience do you have?" is answered `"2"` by the
years-of-experience auto-fill, although no (case-insensitive) exact match —
indeed no entry at all — exists in the store. -/
theorem c8_counterexample :
    (get_answer_for_field []
        "How many years of experience do you have?").2 = some "2" ∧
    Store.hasKey [] "How many years of experience do you have?" = false ∧
    ([] : Store).find?
      (fun p => p.1.pyLower ==
        "How many years of experience do you have?".pyLower) = none := by
  exact ⟨rfl, rfl, rfl⟩

/-- C8 amended: apart from the years-of-experience auto-fill (which returns
`"2"` for matching labels regardless of the store), the lookup returns a
value only on an exact case-insensitive key match and does no fuzzy or
partial matching; the claim's concrete scenario holds, and repeated gets
return the same value. -/
theorem c8_exact_case_insensitive_lookup :
    (∀ (answers : Store) (label : String), expAutoFill label = true →
        (get_answer_for_field answers label).2 = some "2") ∧
    (∀ (answers : Store) (label : String), expAutoFill label = false →
        (get_answer_for_field answers label).1 = answers ∧
        ((get_answer_for_field answers label).2 = none ↔
          ∀ p ∈ answers, p.1.pyLower ≠ label.pyLower) ∧
        (∀ v, (get_answer_for_field answers label).2 = some v →
          ∃ p ∈ answers, p.1.pyLower = label.pyLower ∧ p.2 = v)) ∧
    ((get_answer_for_field [("Years of experience", "2")]
        "years of EXPERIENCE").2 = some "2") ∧
    ((get_answer_for_field [("Years of experience", "2")]
        "Year of experience").2 = none) ∧
    (∀ (answers : Store) (label : String),
        (get_answer_for_field (get_answer_for_field answers label).1 label).2 =
          (get_answer_for_field answers label).2) := by
  refine ⟨gaff_exp, ?_, rfl, rfl, ?_⟩
  · intro answers label h
    exact ⟨gaff_store_unchanged answers label h, gaff_none_iff answers label h,
      gaff_some answers label h⟩
  · intro answers label
    by_cases h : expAutoFill label = true
    · rw [gaff_exp _ _ h, gaff_exp _ _ h]
    · rw [gaff_store_unchanged answers label (by simpa using h)]

/-- C8 witness: the amended theorem at concrete inputs. -/
theorem c8_exact_case_insensitive_lookup_witness :
    (get_answer_for_field [("Years of experience", "2")] "Pronouns").1 =
      [("Years of experience", "2")] ∧
    (get_answer_for_field [] "How many years of experience?").2 = some "2" :=
  ⟨(c8_exact_case_insensitive_lookup.2.1 [("Years of experience", "2")]
      "Pronouns" (by decide)).1,
   c8_exact_case_insensitive_lookup.1 [] "How many years of experience?"
      (by decide)⟩

/-! ## Claim C4 -/

/-- C4 (code bug): `ask_for_input` itself never persists an `Unresolved`
(fallback-sentinel) result — the store it returns is unchanged — but
`TextInputProcessor.process` (text_processor.py line 131, and likewise
`TextareaProcessor.process` line 214) then writes the applied local default
into the Answer Store unconditionally, so after such a resolution the store
mapping for the label HAS changed, contradicting the documented behaviour
("will not be saved", base.py lines 153/184). -/
theorem c4_fallback_persisted_by_text_processors :
    ((ask_for_input "Tell us why" "text" [] none (.ok (.fallbackAns ""))).store
        = []) ∧
    ((ask_for_input "Tell us why" "text" [] none (.ok (.fallbackAns "B"))).store
        = []) ∧
    (Store.get? [] "Tell us why" = none) ∧
    ((textInputProcess none "Tell us why" [] (.ok (.fallbackAns "")) true true
        (.ok "L") true).store =
      [("Tell us why",
        "Yes, I am interested in this position and meet the requirements.")]) ∧
    ((textInputProcess none "Tell us why" [] (.ok (.fallbackAns "B")) true true
        (.ok "L") true).store = [("Tell us why", "B")]) ∧
    ((textareaProcess "Tell us why" [] (.ok (.fallbackAns "B")) true true
        (.ok "L") true).store = [("Tell us why", "B")]) :=
  ⟨rfl, rfl, rfl, rfl, rfl, rfl⟩

/-! ## Claim C3 -/

/-- The page state of an already-closed form: the application modal is absent
and none of the close-control selectors matches anything. -/
def closedFormEnv : ExitEnv :=
  { closeCount := .ok 0, closeClickOk := true, svgCount := .ok 0,
    svgClickOk := true, jsCloseFound := .ok false, discardCount := .ok 0,
    discardClickOk := true, jsDiscardFound := .ok false, modalCount := .ok 0 }

/-- C3 fails as stated: with the application modal already absent (and hence
no close control anywhere on the page), Emergency Exit returns `false`, not
`true` — it gives up in Step 1 after exhausting all three close strategies,
never reaching the verification step. -/
theorem c3_counterexample :
    closedFormEnv.modalCount = .ok 0 ∧
    (emergencyExit closedFormEnv).1 = false ∧
    (emergencyExit closedFormEnv).2 =
      [.screenshot, .closeQuery, .svgQuery, .jsClose] :=
  ⟨rfl, rfl, rfl⟩

/-- C3 amended: Emergency Exit returns `true` exactly when one of the three
close strategies succeeded and the modal is then verified gone.  In a state
where no close control can be found (in particular an already-closed form) it
returns `false`; since the procedure keeps no state, a second invocation in
the same page state returns `false` again and re-attempts the same
close-control searches — the page-level JavaScript close attempt is in its
interaction trace on every such call. -/
theorem c3_exit_true_iff_closed_and_verified :
    (∀ env : ExitEnv,
        (emergencyExit env).1 = true ↔
          (closeSucceeds env = true ∧ env.modalCount = .ok 0)) ∧
    (∀ env : ExitEnv, closeSucceeds env = false →
        (emergencyExit env).1 = false ∧
        ExitStep.jsClose ∈ (emergencyExit env).2) := by
  constructor
  · intro env
    unfold emergencyExit closeSucceeds
    cases h1 : closeStrategy1 env <;> cases h2 : closeStrategy2 env <;>
      cases h3 : closeStrategy3 env <;>
      rcases hm : env.modalCount with u | n <;>
      simp only [h1, h2, h3, hm, Bool.false_or, Bool.true_or, Bool.or_true,
        Bool.or_false, Bool.not_true, Bool.not_false, if_true, if_false,
        Bool.false_eq_true, Bool.true_eq_false] <;>
      first
        | (cases n <;> simp)
        | simp
  · intro env h
    unfold closeSucceeds at h
    rw [Bool.or_eq_false_iff, Bool.or_eq_false_iff] at h
    obtain ⟨⟨h1, h2⟩, h3⟩ := h
    unfold emergencyExit
    simp [h1, h2, h3]

/-- C3 witness: the amended characterization at concrete environments — with
no close control the exit fails (twice alike, still attempting the JS close);
with a clickable close control and the modal verified gone it returns true. -/
theorem c3_exit_true_iff_closed_and_verified_witness :
    ((emergencyExit
        { closeCount := .ok 0, closeClickOk := true, svgCount := .ok 0,
          svgClickOk := true, jsCloseFound := .ok false, discardCount := .ok 0,
          discardClickOk := true, jsDiscardFound := .ok false,
          modalCount := .ok 0 }).1 = false ∧
      ExitStep.jsClose ∈ (emergencyExit
        { closeCount := .ok 0, closeClickOk := true, svgCount := .ok 0,
          svgClickOk := true, jsCloseFound := .ok false, discardCount := .ok 0,
          discardClickOk := true, jsDiscardFound := .ok false,
          modalCount := .ok 0 }).2) ∧
    (emergencyExit
        { closeCount := .ok 1, closeClickOk := true, svgCount := .ok 0,
          svgClickOk := true, jsCloseFound := .ok false, discardCount := .ok 1,
          discardClickOk := true, jsDiscardFound := .ok false,
          modalCount := .ok 0 }).1 = true :=
  ⟨c3_exit_true_iff_closed_and_verified.2 _ (by decide),
   (c3_exit_true_iff_closed_and_verified.1 _).mpr ⟨by decide, rfl⟩⟩

/-! ## Claim C2 -/

/-- C2 fails as stated for the radio-group processor: for the label
"Do you require visa sponsorship?" — which contains the critical keywords
"visa" and "sponsor" — with a stored answer `"No"` and options
`["Yes", "No"]`, `RadioProcessor.process` clicks the option matched from the
stored answer (lines 253-262) without consulting the Oracle or any forced
default: the stored-answer short-circuit is NOT bypassed. -/
theorem c2_counterexample :
    Store.get? [("Do you require visa sponsorship?", "No")]
        "Do you require visa sponsorship?" = some "No" ∧
    strContains "Do you require visa sponsorship?".pyLower "visa" = true ∧
    strContains "Do you require visa sponsorship?".pyLower "sponsor" = true ∧
    radioProcess "Do you require visa sponsorship?"
        [("Do you require visa sponsorship?", "No")] ["Yes", "No"]
        { oracle := .ok (.answer "1"), clickOk := fun _ => true,
          pageNoLabel := false, noLabelClickOk := false } =
      { store := [("Do you require visa sponsorship?", "No")], success := true,
        action := .storedClick 1, oracleInvoked := false } :=
  ⟨rfl, rfl, rfl, rfl⟩

theorem select_critical_always_asks (label : String) (answers : Store)
    (rawOptions : List String) (oracle : OracleOutcome) (uc : Nat)
    (hc : critical_keywords.any (fun k => strContains label.pyLower k) = true)
    (hne : (rawOptions.filter
        (fun t => pyTruthy t && t != "Select an option")).isEmpty = false) :
    (selectProcess label answers rawOptions oracle uc).oracleInvoked = true := by
  unfold selectProcess
  simp only [hc, hne, Bool.or_true, Bool.true_or, Bool.false_eq_true, if_false]
  repeat' split
  all_goals rfl

theorem radio_stored_answer_reused (label : String) (answers : Store)
    (options : List String) (env : RadioEnv) (i : Nat)
    (hne : options.isEmpty = false)
    (hre : (strContains label.pyLower "resume" ||
            strContains label.pyLower "cv") = false)
    (hh : radioHeuristic label options = none)
    (ha : pyTruthyOpt (get_answer_for_field answers label).2 = true)
    (hs : storedSelect options ((get_answer_for_field answers label).2.getD "")
        env.clickOk = some i) :
    radioProcess label answers options env =
      { store := (get_answer_for_field answers label).1, success := true,
        action := .storedClick i, oracleInvoked := false } := by
  unfold radioProcess
  rcases hg : get_answer_for_field answers label with ⟨a1, a2⟩
  rw [hg] at ha hs
  simp only at ha hs
  simp only [hne, Bool.false_eq_true, if_false, hre,
    Bool.or_eq_true, hh]
  unfold radioMain
  simp only [ha, Bool.not_true, Bool.false_eq_true, if_false, hs]

/-- C2 corrected: the single-select processor does bypass the stored-answer
short-circuit for labels containing a critical keyword (it always calls
`ask_for_input`); the radio-group processor has no such override — when the
stored answer fuzzily matches an option (and no yes/no keyword heuristic
applies first), the stored answer is clicked directly and the Oracle is never
consulted, even for sponsorship/visa labels. -/
theorem c2_critical_reresolution_select_only :
    (∀ (label : String) (answers : Store) (rawOptions : List String)
        (oracle : OracleOutcome) (uc : Nat),
        critical_keywords.any (fun k => strContains label.pyLower k) = true →
        (rawOptions.filter
          (fun t => pyTruthy t && t != "Select an option")).isEmpty = false →
        (selectProcess label answers rawOptions oracle uc).oracleInvoked = true) ∧
    (∀ (label : String) (answers : Store) (options : List String)
        (env : RadioEnv) (i : Nat),
        options.isEmpty = false →
        (strContains label.pyLower "resume" ||
         strContains label.pyLower "cv") = false →
        radioHeuristic label options = none →
        pyTruthyOpt (get_answer_for_field answers label).2 = true →
        storedSelect options ((get_answer_for_field answers label).2.getD "")
          env.clickOk = some i →
        radioProcess label answers options env =
          { store := (get_answer_for_field answers label).1, success := true,
            action := .storedClick i, oracleInvoked := false }) :=
  ⟨select_critical_always_asks, radio_stored_answer_reused⟩

/-- C2 witness: the corrected statement at concrete inputs — a critical
select label re-resolves despite a stored answer; a critical radio label with
a matching stored answer is answered from the store without the Oracle. -/
theorem c2_critical_reresolution_select_only_witness :
    (selectProcess "Do you now or will you in the future require visa sponsorship?"
        [("Do you now or will you in the future require visa sponsorship?", "No")]
        ["Yes", "No"] (.ok (.answer "2")) 0).oracleInvoked = true ∧
    radioProcess "visa sponsorship" [("visa sponsorship", "No")] ["Yes", "No"]
        { oracle := .exn, clickOk := fun _ => true,
          pageNoLabel := false, noLabelClickOk := false } =
      { store := [("visa sponsorship", "No")], success := true,
        action := .storedClick 1, oracleInvoked := false } :=
  ⟨c2_critical_reresolution_select_only.1
      "Do you now or will you in the future require visa sponsorship?"
      [("Do you now or will you in the future require visa sponsorship?", "No")]
      ["Yes", "No"] (.ok (.answer "2")) 0 (by decide) (by decide),
   c2_critical_reresolution_select_only.2
      "visa sponsorship" [("visa sponsorship", "No")] ["Yes", "No"]
      { oracle := .exn, clickOk := fun _ => true,
        pageNoLabel := false, noLabelClickOk := false } 1
      (by decide) (by decide) (by decide) (by decide) (by decide)⟩

/-! ## Claim C7 -/

/-- C7 fails as stated for the single-line text processor: for a
"Cover letter" label with a stored answer "old letter" (not the
`@file:cover_letter.pdf` sentinel), `TextInputProcessor.process` reuses the
stored answer and never calls the cover-letter generator (the generation at
line 148 is guarded by `answer == '@file:cover_letter.pdf' or not answer`). -/
theorem c7_counterexample :
    textInputProcess none "Cover letter" [("Cover letter", "old letter")]
        (.ok (.answer "ignored")) true true (.ok "fresh letter") true =
      { store := [("Cover letter", "old letter")],
        action := .filled "old letter", success := true, usedCover := false } :=
  rfl

theorem textarea_cover_generates (label : String) (answers : Store)
    (oracle : OracleOutcome) (sjd ajd : Bool) (letter : String)
    (hcl : strContains label.pyLower "cover letter" = true)
    (hjd : (sjd || ajd) = true) :
    (textareaProcess label answers oracle sjd ajd (.ok letter) true).action
        = .generatedCover letter ∧
    (textareaProcess label answers oracle sjd ajd (.ok letter) true).usedCover
        = true ∧
    (textareaProcess label answers oracle sjd ajd (.ok letter)
        true).store.get? label = some letter := by
  refine ⟨?_, ?_, ?_⟩ <;>
    · unfold textareaProcess
      split
      split <;> simp [hcl, hjd, get?_set_self]

theorem text_cover_reuses_stored (label : String) (answers : Store)
    (oracle : OracleOutcome) (sjd ajd : Bool) (gen : Except Unit String)
    (s : String)
    (hcl : strContains label.pyLower "cover letter" = true)
    (hs : (get_answer_for_field answers label).2 = some s)
    (hne : s ≠ "") (hnf : s ≠ "@file:cover_letter.pdf") :
    (textInputProcess none label answers oracle sjd ajd gen true).action
        = .filled s ∧
    (textInputProcess none label answers oracle sjd ajd gen true).usedCover
        = false := by
  have hts : pyTruthy s = true := by simp [pyTruthy, hne]
  have hbeq : (s == "@file:cover_letter.pdf") = false := by
    simp [hnf]
  constructor <;>
    · unfold textInputProcess
      rcases hg : get_answer_for_field answers label with ⟨a1, a2⟩
      rw [hg] at hs
      simp only at hs
      subst hs
      simp [pyTruthyOpt, hts, hcl, hbeq]

theorem text_cover_sentinel_generates (label : String) (answers : Store)
    (oracle : OracleOutcome) (sjd ajd : Bool) (letter : String)
    (hcl : strContains label.pyLower "cover letter" = true)
    (hs : (get_answer_for_field answers label).2 = some "@file:cover_letter.pdf")
    (hjd : (sjd || ajd) = true) :
    (textInputProcess none label answers oracle sjd ajd (.ok letter) true).action
        = .generatedCover letter := by
  unfold textInputProcess
  rcases hg : get_answer_for_field answers label with ⟨a1, a2⟩
  rw [hg] at hs
  simp only at hs
  subst hs
  simp [pyTruthyOpt, pyTruthy, hcl, hjd]

/-- C7 corrected: the multi-line (textarea) processor never reuses a stored
cover-letter answer — it always generates a fresh value via the generator
with the job context, persisting the result for reference; the single-line
text processor, however, generates a fresh cover letter only when the stored
answer is absent, empty, or the `@file:cover_letter.pdf` sentinel — any other
stored answer is reused verbatim with no generation. -/
theorem c7_cover_letter_fresh_generation :
    (∀ (label : String) (answers : Store) (oracle : OracleOutcome)
        (sjd ajd : Bool) (letter : String),
        strContains label.pyLower "cover letter" = true →
        (sjd || ajd) = true →
        (textareaProcess label answers oracle sjd ajd (.ok letter) true).action
            = .generatedCover letter ∧
        (textareaProcess label answers oracle sjd ajd (.ok letter) true).usedCover
            = true ∧
        (textareaProcess label answers oracle sjd ajd (.ok letter)
            true).store.get? label = some letter) ∧
    (∀ (label : String) (answers : Store) (oracle : OracleOutcome)
        (sjd ajd : Bool) (gen : Except Unit String) (s : String),
        strContains label.pyLower "cover letter" = true →
        (get_answer_for_field answers label).2 = some s →
        s ≠ "" → s ≠ "@file:cover_letter.pdf" →
        (textInputProcess none label answers oracle sjd ajd gen true).action
            = .filled s ∧
        (textInputProcess none label answers oracle sjd ajd gen true).usedCover
            = false) ∧
    (∀ (label : String) (answers : Store) (oracle : OracleOutcome)
        (sjd ajd : Bool) (letter : String),
        strContains label.pyLower "cover letter" = true →
        (get_answer_for_field answers label).2 = some "@file:cover_letter.pdf" →
        (sjd || ajd) = true →
        (textInputProcess none label answers oracle sjd ajd (.ok letter)
            true).action = .generatedCover letter) :=
  ⟨textarea_cover_generates, text_cover_reuses_stored, text_cover_sentinel_generates⟩

/-- C7 witness: the corrected statement at concrete inputs. -/
theorem c7_cover_letter_fresh_generation_witness :
    (textareaProcess "Cover letter" [("Cover letter", "stale")]
        (.ok (.answer "x")) true false (.ok "fresh") true).action
        = .generatedCover "fresh" ∧
    (textInputProcess none "Cover letter" [("Cover letter", "stale")]
        (.ok (.answer "x")) true false (.ok "fresh") true).action
        = .filled "stale" ∧
    (textInputProcess none "Cover letter"
        [("Cover letter", "@file:cover_letter.pdf")]
        (.ok (.answer "x")) true false (.ok "fresh") true).action
        = .generatedCover "fresh" :=
  ⟨(c7_cover_letter_fresh_generation.1 "Cover letter" [("Cover letter", "stale")]
      (.ok (.answer "x")) true false "fresh" (by decide) (by decide)).1,
   (c7_cover_letter_fresh_generation.2.1 "Cover letter" [("Cover letter", "stale")]
      (.ok (.answer "x")) true false (.ok "fresh") "stale" (by decide) (by decide)
      (by decide) (by decide)).1,
   c7_cover_letter_fresh_generation.2.2 "Cover letter"
      [("Cover letter", "@file:cover_letter.pdf")]
      (.ok (.answer "x")) true false "fresh" (by decide) (by decide) (by decide)⟩

/-! ## Claim C9 -/

theorem ask_numeric_maps_one_based (label ft : String) (answers : Store)
    (opts : List String) (k : String)
    (hd : pyIsDigit k = true) (h1 : 0 < strToNat k)
    (h2 : strToNat k ≤ opts.length) (hne : opts ≠ []) :
    ask_for_input label ft answers (some opts) (.ok (.answer k)) =
      ⟨answers.set label (opts.getD (strToNat k - 1) ""),
       opts.getD (strToNat k - 1) ""⟩ := by
  have hk : k ≠ "" := by
    intro h
    subst h
    simp [pyIsDigit] at hd
  have htr : pyTruthy k = true := by simp [pyTruthy, hk]
  rcases opts with _ | ⟨a, t⟩
  · exact absurd rfl hne
  · unfold ask_for_input
    simp [htr, hd, h1, h2]
    intro hcon
    exact absurd h2 (by simp; omega)

/-- C9: a numeric Oracle response `k` with `1 ≤ k ≤ N` for a choice field is
mapped 1-based onto the option list, and the resolved option text — not the
raw numeral — is persisted into the Answer Store; concretely, response "2"
with options ["Yes", "No"] resolves and persists "No", both in
`ask_for_input` and in the radio processor's direct generator path. -/
theorem c9_numeral_mapped_one_based_and_option_text_persisted :
    (∀ (label ft : String) (answers : Store) (opts : List String) (k : String),
        pyIsDigit k = true → 0 < strToNat k → strToNat k ≤ opts.length →
        opts ≠ [] →
        ask_for_input label ft answers (some opts) (.ok (.answer k)) =
          ⟨answers.set label (opts.getD (strToNat k - 1) ""),
           opts.getD (strToNat k - 1) ""⟩) ∧
    (radioProcess "Which option do you prefer?" [] ["Yes", "No"]
        { oracle := .ok (.answer "2"), clickOk := fun _ => true,
          pageNoLabel := false, noLabelClickOk := false } =
      { store := [("Which option do you prefer?", "No")], success := true,
        action := .genericClick 1, oracleInvoked := true }) :=
  ⟨ask_numeric_maps_one_based, rfl⟩

/-- C9 witness: Oracle response "2" with options ["Yes", "No"] resolves to
"No" and persists "No" (the option text) under the question label. -/
theorem c9_numeral_mapping_witness :
    pyIsDigit "2" = true ∧
    ask_for_input "Will you relocate?" "select" [] (some ["Yes", "No"])
        (.ok (.answer "2")) =
      ⟨[("Will you relocate?", "No")], "No"⟩ :=
  ⟨by decide,
   c9_numeral_mapped_one_based_and_option_text_persisted.1
     "Will you relocate?" "select" [] ["Yes", "No"] "2"
     (by decide) (by decide) (by decide) (by decide)⟩

/-! ## Wizard lemmas (claims C1, C5, C6) -/

theorem str_append_assoc (a b c : String) : (a ++ b) ++ c = a ++ (b ++ c) := by
  apply String.ext
  simp [String.data_append]

theorem strContains_in_reason (a b c d : String) :
    strContains (a ++ b ++ c ++ d) b = true := by
  apply strContains_of_infix
  refine ⟨a.toList, c.toList ++ d.toList, ?_⟩
  simp [String.toList, String.data_append]

theorem strStartsWith_concat (a b : String) : strStartsWith (a ++ b) a = true := by
  apply strStartsWith_of_prefix
  have h : (a ++ b).toList = a.toList ++ b.toList := by
    simp [String.toList, String.data_append]
  rw [h]
  exact List.prefix_append _ _

/-- Every loop iteration either raises or returns a Failure outcome that
invoked the emergency exit: the branch that would continue to the next step is
unreachable, because reaching the field-processing stage raises the
`FormProcessor` arity `TypeError` first. -/
theorem stepIter_shape (env : WizEnv) (s : WizState) :
    (∃ e, stepIter env s = .error e) ∨
    (∃ o, stepIter env s = .ok (.done o) ∧ o.status = APPLICATION_FAILURE ∧
        o.emergencyExits = 1) := by
  simp only [stepIter]
  rcases (env.steps s.stepCount).premium with e | b
  · exact .inl ⟨e, rfl⟩
  dsimp only
  rcases (env.steps s.stepCount).modalCount with e | mc
  · exact .inl ⟨e, rfl⟩
  dsimp only
  by_cases h0 : (mc == 0) = true
  · rw [if_pos h0]
    exact .inr ⟨_, rfl, rfl, rfl⟩
  rw [if_neg h0]
  rcases (env.steps s.stepCount).innerHtml with e | content
  · exact .inl ⟨e, rfl⟩
  dsimp only
  rcases (if some content == s.prevContent && maxDuplicates ≤ s.dupCount + 1 then
      (env.steps s.stepCount).altButtons else .ok []) with e | btns
  · exact .inl ⟨e, rfl⟩
  dsimp only
  rcases checkDuplicate s.prevContent s.dupCount content btns with ⟨p, d⟩ | ⟨i, p, d⟩ | _
  · exact .inl ⟨.typeError tyErrMsg, rfl⟩
  · rcases (env.steps s.stepCount).altClick with e | u
    · exact .inl ⟨e, rfl⟩
    · exact .inl ⟨.typeError tyErrMsg, rfl⟩
  · exact .inr ⟨_, rfl, rfl, rfl⟩

theorem stepLoop_status (env : WizEnv) (s : WizState) :
    ∀ o, (stepLoop env s).1 = .ok o → o.status = APPLICATION_FAILURE := by
  intro o ho
  unfold stepLoop at ho
  by_cases hlt : s.stepCount < maxSteps
  · rw [if_pos hlt] at ho
    rcases stepIter_shape env s with ⟨e, he⟩ | ⟨o', ho', hst, _⟩
    · rw [he] at ho
      simp at ho
    · rw [ho'] at ho
      simp only [Except.ok.injEq] at ho
      rw [← ho]
      exact hst
  · rw [if_neg hlt] at ho
    simp only [Except.ok.injEq] at ho
    rw [← ho]
    rfl

theorem stepLoop_count (env : WizEnv) (s : WizState) :
    (stepLoop env s).2 ≤ maxSteps := by
  unfold stepLoop
  by_cases hlt : s.stepCount < maxSteps
  · rw [if_pos hlt]
    rcases stepIter_shape env s with ⟨e, he⟩ | ⟨o', ho', _, _⟩
    · rw [he]
      simp [maxSteps]
    · rw [ho']
      simp [maxSteps]
  · rw [if_neg hlt]
    simp [maxSteps]

theorem runBody_status (env : WizEnv) :
    ∀ o, (runBody env).1 = .ok o → o.status = APPLICATION_FAILURE := by
  intro o ho
  unfold runBody at ho
  by_cases hc : env.easyApplyClicked = true
  · rw [if_pos hc] at ho
    exact stepLoop_status env _ o ho
  · rw [if_neg hc] at ho
    rcases hcount : env.easyApplyCount with e | n <;> rw [hcount] at ho
    · simp at ho
    · cases n with
      | zero =>
          simp only [Except.ok.injEq] at ho
          rw [← ho]
      | succ m =>
          rcases hclick : env.easyApplyClick with e | u <;> rw [hclick] at ho
          · simp at ho
          · exact stepLoop_status env _ o ho

/-! ## Claim C5 -/

/-- C5: for every driver behaviour — including any call raising a timeout or
driver error, and the `TypeError` raised at the field-processing stage —
`start_application` returns one of the three outcome values and never
propagates an exception; when the try-body raises, the outcome is Failure,
the recorded reason contains the exception message, and the emergency exit is
invoked before returning. -/
theorem c5_wizard_never_raises (env : WizEnv) :
    ((startApplication env).status = APPLICATION_SUCCESS ∨
     (startApplication env).status = APPLICATION_FAILURE ∨
     (startApplication env).status = APPLICATION_INCOMPLETE) ∧
    (∀ e, (runBody env).1 = .error e →
        (startApplication env).status = APPLICATION_FAILURE ∧
        (∃ r, (startApplication env).failureReasons = [r] ∧
            strContains r e.message = true) ∧
        1 ≤ (startApplication env).emergencyExits) := by
  constructor
  · right; left
    unfold startApplication
    rcases hr : (runBody env).1 with e | o
    · cases e <;> rfl
    · exact runBody_status env o hr
  · intro e he
    unfold startApplication
    rw [he]
    cases e with
    | timeout m =>
        exact ⟨rfl, ⟨_, rfl,
          strContains_in_reason "Timeout: " m ", emergency exit "
            (exitTxt env.exitResult)⟩, by simp⟩
    | playwright m =>
        exact ⟨rfl, ⟨_, rfl,
          strContains_in_reason "Playwright error: " m ", emergency exit "
            (exitTxt env.exitResult)⟩, by simp⟩
    | typeError m =>
        exact ⟨rfl, ⟨_, rfl,
          strContains_in_reason "Unexpected error: " m ", emergency exit "
            (exitTxt env.exitResult)⟩, by simp⟩

/-- A benign per-step driver behaviour used by the witnesses. -/
def plainStep : StepEnv :=
  { premium := .ok false, modalCount := .ok 1, innerHtml := .ok "A",
    altButtons := .ok [], altClick := .ok () }

/-- A driver behaviour whose entry-control lookup raises a timeout. -/
def timeoutEntryEnv : WizEnv :=
  { easyApplyClicked := false, easyApplyCount := .error (.timeout "boom"),
    easyApplyClick := .ok (), steps := fun _ => plainStep, exitResult := false }

/-- A benign driver behaviour that reaches field processing on step 1. -/
def plainWizEnv : WizEnv :=
  { easyApplyClicked := true, easyApplyCount := .ok 0, easyApplyClick := .ok (),
    steps := fun _ => plainStep, exitResult := true }

/-- C5 witness: a driver that raises a timeout while locating the entry
control yields a Failure whose reason contains the message, with the
emergency exit invoked. -/
theorem c5_wizard_never_raises_witness :
    (runBody timeoutEntryEnv).1 = .error (.timeout "boom") ∧
    (startApplication timeoutEntryEnv).status = APPLICATION_FAILURE ∧
    1 ≤ (startApplication timeoutEntryEnv).emergencyExits :=
  ⟨rfl,
   ((c5_wizard_never_raises timeoutEntryEnv).2 (.timeout "boom") rfl).1,
   ((c5_wizard_never_raises timeoutEntryEnv).2 (.timeout "boom") rfl).2.2⟩

/-! ## Claim C1 -/

/-- C1: `FormProcessor.__init__` accepts two arguments besides `self` but the
wizard's step loop passes three, so every attempt that reaches the
field-processing stage raises a `TypeError` there; the generic handler turns
it into a Failure whose reason begins with "Unexpected error", and
`start_application` never returns Success for such an attempt. -/
theorem c1_field_processing_always_fails (env : WizEnv)
    (h : reachesFieldStage env = true) :
    formProcessorCallArgs ≠ formProcessorArity ∧
    (runBody env).1 = .error (.typeError tyErrMsg) ∧
    (startApplication env).status = APPLICATION_FAILURE ∧
    (∃ r, (startApplication env).failureReasons = [r] ∧
        strStartsWith r "Unexpected error" = true) ∧
    (startApplication env).status ≠ APPLICATION_SUCCESS := by
  unfold reachesFieldStage at h
  rw [Bool.and_eq_true] at h
  obtain ⟨hentry, hiter⟩ := h
  have hstep : stepIter env ⟨0, none, 0, 0⟩ = .error (.typeError tyErrMsg) := by
    rcases hp : (env.steps 0).premium with pe | pb <;> rw [hp] at hiter
    · simp at hiter
    rcases hm : (env.steps 0).modalCount with me | mc <;> rw [hm] at hiter
    · simp at hiter
    rcases hh : (env.steps 0).innerHtml with he | c <;> rw [hh] at hiter
    · simp at hiter
    cases mc with
    | zero => simp at hiter
    | succ n =>
        simp only [stepIter]
        rw [hp, hm, hh]
        rfl
  have hloop : (stepLoop env ⟨0, none, 0, 0⟩).1 = .error (.typeError tyErrMsg) := by
    unfold stepLoop
    rw [if_pos (by decide : ((⟨0, none, 0, 0⟩ : WizState).stepCount < maxSteps)),
      hstep]
  have hrun : (runBody env).1 = .error (.typeError tyErrMsg) := by
    unfold runBody
    cases hc : env.easyApplyClicked with
    | true => exact hloop
    | false =>
        rw [hc, Bool.false_or] at hentry
        rcases hcount : env.easyApplyCount with e | n <;> rw [hcount] at hentry
        · simp at hentry
        cases n with
        | zero => simp at hentry
        | succ m =>
            rcases hclick : env.easyApplyClick with e | u <;> rw [hclick] at hentry
            · simp at hentry
            · exact hloop
  have happ : startApplication env =
      { status := APPLICATION_FAILURE,
        failureReasons := ["Unexpected error: " ++ tyErrMsg
          ++ ", emergency exit " ++ exitTxt env.exitResult],
        emergencyExits := 1 } := by
    unfold startApplication
    rw [hrun]
  refine ⟨by decide, hrun, by rw [happ], ?_,
    by rw [happ]; exact (by decide : APPLICATION_FAILURE ≠ APPLICATION_SUCCESS)⟩
  refine ⟨"Unexpected error: " ++ tyErrMsg ++ ", emergency exit "
    ++ exitTxt env.exitResult, by rw [happ], ?_⟩
  have hsplit : ("Unexpected error: " ++ tyErrMsg ++ ", emergency exit "
      ++ exitTxt env.exitResult) =
      "Unexpected error" ++ ((": " ++ tyErrMsg) ++ (", emergency exit "
        ++ exitTxt env.exitResult)) := by
    apply String.ext
    simp [String.data_append]
  rw [hsplit]
  exact strStartsWith_concat _ _

/-- C1 witness: a run whose driver presents the modal and a fingerprint on
step 1 (so the field-processing stage of the loop is reached) fails with an
"Unexpected error" reason and does not return Success. -/
theorem c1_field_processing_always_fails_witness :
    reachesFieldStage plainWizEnv = true ∧
    (startApplication plainWizEnv).status = APPLICATION_FAILURE :=
  ⟨rfl, (c1_field_processing_always_fails plainWizEnv rfl).2.2.1⟩

/-! ## Claim C6 -/

/-- C6: the step loop always terminates with at most `maxSteps` (8)
iterations for every driver behaviour; in the duplicate check, an identical
fingerprint strictly increases the duplicate counter (in every non-exit
outcome), reaching the duplicate threshold (2) always transitions out of the
check via an alternate-control click or the Emergency-Exit/Failure path, and
a changed fingerprint resets the counter to 0. -/
theorem c6_loop_bounded_and_duplicate_dynamics :
    (∀ (env : WizEnv) (s : WizState), (stepLoop env s).2 ≤ maxSteps) ∧
    (∀ (prev : Option String) (dup : Nat) (content : String)
        (btns : List String) (p : Option String) (d : Nat),
        some content = prev →
        (checkDuplicate prev dup content btns = .proceed p d → d = dup + 1) ∧
        (∀ i, checkDuplicate prev dup content btns = .altClicked i p d →
            d = dup + 1)) ∧
    (∀ (prev : Option String) (dup : Nat) (content : String)
        (btns : List String),
        some content = prev → maxDuplicates ≤ dup + 1 →
        (∃ i p d, checkDuplicate prev dup content btns = .altClicked i p d) ∨
        checkDuplicate prev dup content btns = .exitFailure) ∧
    (∀ (prev : Option String) (dup : Nat) (content : String)
        (btns : List String),
        some content ≠ prev →
        checkDuplicate prev dup content btns = .proceed (some content) 0) := by
  refine ⟨stepLoop_count, ?_, ?_, ?_⟩
  · intro prev dup content btns p d heq
    have hbeq : (some content == prev) = true := by simp [heq]
    unfold checkDuplicate
    rw [if_pos hbeq]
    by_cases hth : maxDuplicates ≤ dup + 1
    · rw [if_pos hth]
      rcases haf : altFind btns with _ | i
      · exact ⟨fun hcon => by simp at hcon, fun i' hcon => by simp at hcon⟩
      · exact ⟨fun hcon => by simp at hcon,
          fun i' hcon => by
            simp only [DupOutcome.altClicked.injEq] at hcon
            exact hcon.2.2.symm⟩
    · rw [if_neg hth]
      exact ⟨fun hcon => by
          simp only [DupOutcome.proceed.injEq] at hcon
          exact hcon.2.symm,
        fun i' hcon => by simp at hcon⟩
  · intro prev dup content btns heq hth
    have hbeq : (some content == prev) = true := by simp [heq]
    unfold checkDuplicate
    rw [if_pos hbeq, if_pos hth]
    rcases haf : altFind btns with _ | i
    · exact .inr rfl
    · exact .inl ⟨i, prev, dup + 1, rfl⟩
  · intro prev dup content btns hne
    have hbeq : (some content == prev) = false := by
      simp [hne]
    unfold checkDuplicate
    rw [if_neg (by simp [hbeq])]

/-- C6 witness: the bound and the duplicate-counter dynamics at concrete
inputs. -/
theorem c6_loop_bounded_and_duplicate_dynamics_witness :
    (stepLoop plainWizEnv ⟨0, none, 0, 0⟩).2 ≤ maxSteps ∧
    ((∃ i p d, checkDuplicate (some "A") 1 "A" ["Back", "Next"] =
        .altClicked i p d) ∨
      checkDuplicate (some "A") 1 "A" ["Back", "Next"] = .exitFailure) ∧
    checkDuplicate (some "B") 3 "A" [] = .proceed (some "A") 0 :=
  ⟨c6_loop_bounded_and_duplicate_dynamics.1 plainWizEnv ⟨0, none, 0, 0⟩,
   c6_loop_bounded_and_duplicate_dynamics.2.2.1 (some "A") 1 "A"
     ["Back", "Next"] rfl (by decide),
   c6_loop_bounded_and_duplicate_dynamics.2.2.2 (some "B") 3 "A" []
     (by decide)⟩

end LinkedinApply
